import Mathlib

/-!
Verification of the GPU-resource and descriptor-management layer of the
PXT engine: a shallow embedding of `graphics/resources/buffer.cpp`,
`graphics/descriptors.cpp`, `graphics/descriptors/descriptor_writer.cpp`
and `graphics/render_systems/raytracing_scene_manager_system.hpp`,
together with theorems settling the specification claims about them.

Machine integers (`VkDeviceSize` = `uint64_t`) are modelled as `Nat`
with explicit reduction modulo `2^64` wherever C++ unsigned overflow can
occur.  External Vulkan calls are modelled as oracle parameters (their
outcome is an input of the embedded function).  C++ `assert` failures
and thrown `std::runtime_error` are modelled as the `Except.error`
branch of an explicit error type, so that an operation that cannot fail
is one that always returns `Except.ok`.
-/

namespace PXTEngine

/-- Model of a C++ `assert` failure or a thrown `std::runtime_error`. -/
inductive EngineError where
  | assertionFailure
  | runtimeError
deriving DecidableEq

/-- The Vulkan sentinel `VK_WHOLE_SIZE` = `~0ULL` = `2^64 - 1`. -/
def VK_WHOLE_SIZE : Nat := 2^64 - 1

/-- Mirror of `VkDescriptorBufferInfo` (buffer handle, byte offset, byte range). -/
structure VkDescriptorBufferInfo where
  buffer : Nat
  offset : Nat
  range : Nat
deriving DecidableEq

/-- Mirror of `VkMappedMemoryRange` (the `sType` constant is omitted):
the range handed to `vkFlushMappedMemoryRanges` / `vkInvalidateMappedMemoryRanges`. -/
structure VkMappedMemoryRange where
  memory : Nat
  offset : Nat
  size : Nat
deriving DecidableEq

/-- `Buffer::getAlignment` from `graphics/resources/buffer.cpp`:
`if (minOffsetAlignment > 0) return (instanceSize + minOffsetAlignment - 1) & ~(minOffsetAlignment - 1); return instanceSize;`
in `uint64_t` arithmetic.  The bitwise complement `~x` of a `uint64_t`
is `(2^64 - 1) ^^^ x`, and the sum is reduced modulo `2^64`. -/
def getAlignment (instanceSize minOffsetAlignment : Nat) : Nat :=
  if 0 < minOffsetAlignment then
    ((instanceSize + minOffsetAlignment - 1) % 2^64) &&& ((2^64 - 1) ^^^ (minOffsetAlignment - 1))
  else
    instanceSize

/-- Byte-level model of `memcpy(dst + dstOff, data, size)` on a region
represented as a function from byte address to byte value. -/
def memcpy (mem : Nat → Nat) (dstOff : Nat) (data : Nat → Nat) (size : Nat) : Nat → Nat :=
  fun a => if dstOff ≤ a ∧ a < dstOff + size then data (a - dstOff) else mem a

/-- State of a `PXTEngine::Buffer`: the handles, the sizing fields
computed by the constructor, whether a host mapping is active
(`m_mapped` pointer null or not), the bytes of the mapped region, and a
count of the `vkUnmapMemory` calls issued (to make the effect of
`unmap` observable). -/
structure Buffer where
  buffer : Nat
  memory : Nat
  instanceSize : Nat
  instanceCount : Nat
  alignmentSize : Nat
  bufferSize : Nat
  mapped : Bool
  mem : Nat → Nat
  unmapCalls : Nat

/-- The `Buffer` constructor: `m_alignmentSize = getAlignment(instanceSize, minOffsetAlignment);
m_bufferSize = m_alignmentSize * instanceCount;` (a `uint64_t` product),
then `createBuffer` allocates the handles; no mapping is active yet. -/
def Buffer.create (instanceSize instanceCount minOffsetAlignment : Nat) : Buffer :=
  let A := getAlignment instanceSize minOffsetAlignment
  { buffer := 1
    memory := 1
    instanceSize := instanceSize
    instanceCount := instanceCount
    alignmentSize := A
    bufferSize := (A * instanceCount) % 2^64
    mapped := false
    mem := fun _ => 0
    unmapCalls := 0 }

/-- `Buffer::unmap`: `if (m_mapped) { vkUnmapMemory(...); m_mapped = nullptr; }`.
The `vkUnmapMemory` call is recorded in `unmapCalls`. -/
def Buffer.unmap (b : Buffer) : Buffer :=
  if b.mapped then { b with mapped := false, unmapCalls := b.unmapCalls + 1 } else b

/-- `Buffer::writeToBuffer(data, size, offset)`:
`assert(m_mapped && "Cannot copy to unmapped buffer");` then
`if (size == VK_WHOLE_SIZE) memcpy(m_mapped, data, m_bufferSize);
else memcpy((char*)m_mapped + offset, data, size);`. -/
def Buffer.writeToBuffer (b : Buffer) (data : Nat → Nat) (size offset : Nat) :
    Except EngineError Buffer :=
  if b.mapped = false then
    Except.error EngineError.assertionFailure
  else if size = VK_WHOLE_SIZE then
    Except.ok { b with mem := memcpy b.mem 0 data b.bufferSize }
  else
    Except.ok { b with mem := memcpy b.mem offset data size }

/-- `Buffer::flush(size, offset)`: fills a `VkMappedMemoryRange` with
`m_memory`, `offset`, `size` and returns the result of
`vkFlushMappedMemoryRanges` on it.  The source performs no check of
`m_mapped`: the range is submitted unconditionally. -/
def Buffer.flush (b : Buffer) (size offset : Nat) : Except EngineError VkMappedMemoryRange :=
  Except.ok { memory := b.memory, offset := offset, size := size }

/-- `Buffer::invalidate(size, offset)`: identical shape to `flush`, calling
`vkInvalidateMappedMemoryRanges`; again no check of `m_mapped`. -/
def Buffer.invalidate (b : Buffer) (size offset : Nat) : Except EngineError VkMappedMemoryRange :=
  Except.ok { memory := b.memory, offset := offset, size := size }

/-- `Buffer::descriptorInfo(size, offset)`: `VkDescriptorBufferInfo{m_buffer, offset, size}`. -/
def Buffer.descriptorInfo (b : Buffer) (size offset : Nat) : VkDescriptorBufferInfo :=
  { buffer := b.buffer, offset := offset, range := size }

/-- `Buffer::writeToIndex(data, index)`:
`writeToBuffer(data, m_instanceSize, index * m_alignmentSize)`
(the offset product in `uint64_t` arithmetic). -/
def Buffer.writeToIndex (b : Buffer) (data : Nat → Nat) (index : Nat) :
    Except EngineError Buffer :=
  b.writeToBuffer data b.instanceSize ((index * b.alignmentSize) % 2^64)

/-- `Buffer::flushIndex(index)`: `flush(m_alignmentSize, index * m_alignmentSize)`. -/
def Buffer.flushIndex (b : Buffer) (index : Nat) : Except EngineError VkMappedMemoryRange :=
  b.flush b.alignmentSize ((index * b.alignmentSize) % 2^64)

/-- `Buffer::descriptorInfoForIndex(index)`:
`descriptorInfo(m_alignmentSize, index * m_alignmentSize)`. -/
def Buffer.descriptorInfoForIndex (b : Buffer) (index : Nat) : VkDescriptorBufferInfo :=
  b.descriptorInfo b.alignmentSize ((index * b.alignmentSize) % 2^64)

/-- `Buffer::invalidateIndex(index)`: `invalidate(m_alignmentSize, index * m_alignmentSize)`. -/
def Buffer.invalidateIndex (b : Buffer) (index : Nat) : Except EngineError VkMappedMemoryRange :=
  b.invalidate b.alignmentSize ((index * b.alignmentSize) % 2^64)

/-- Mirror of `VkDescriptorSetAllocateInfo` as filled by
`DescriptorPool::allocateDescriptorSet`: the pool handle, the single set
layout handle pointed to by `pSetLayouts`, and `descriptorSetCount`. -/
structure VkDescriptorSetAllocateInfo where
  descriptorPool : Nat
  setLayout : Nat
  descriptorSetCount : Nat
deriving DecidableEq

/-- `DescriptorPool::allocateDescriptorSet(layout, descriptor)` from
`graphics/descriptors.cpp`: fills a `VkDescriptorSetAllocateInfo` with
the pool, the layout and count 1, calls `vkAllocateDescriptorSets`
(modelled by the oracle `vkAllocate`, returning `some set` on
`VK_SUCCESS` and `none` otherwise), and returns `false` on failure and
`true` on success.  The out-parameter `descriptor` keeps its previous
value on failure.  The body contains no `throw`; the `Except` result
type records that the only failure signal is the returned `Bool`. -/
def DescriptorPool.allocateDescriptorSet (pool setLayout : Nat)
    (vkAllocate : VkDescriptorSetAllocateInfo → Option Nat) (descriptor : Nat) :
    Except EngineError (Bool × Nat) :=
  let allocInfo : VkDescriptorSetAllocateInfo :=
    { descriptorPool := pool, setLayout := setLayout, descriptorSetCount := 1 }
  match vkAllocate allocInfo with
  | Option.none => Except.ok (false, descriptor)
  | Option.some s => Except.ok (true, s)

/-- Mirror of `VkWriteDescriptorSet` as filled by
`DescriptorWriter::writeBuffer` / `writeImage` (`sType` omitted; the
`pBufferInfo`/`pImageInfo` pointer is collapsed into one `info` handle). -/
structure VkWriteDescriptorSet where
  dstSet : Nat
  dstBinding : Nat
  descriptorType : Nat
  descriptorCount : Nat
  info : Nat
deriving DecidableEq

/-- The batch of pending writes of a `DescriptorWriter` (`m_writes`). -/
structure DescriptorWriter where
  writes : List VkWriteDescriptorSet
deriving DecidableEq

/-- The updates a device has received: one entry per
`vkUpdateDescriptorSets` call, holding the batch passed to that call. -/
structure DeviceUpdates where
  updates : List (List VkWriteDescriptorSet)
deriving DecidableEq

/-- `DescriptorWriter::overwrite(set)` (textually identical in
`graphics/descriptors.cpp` and `graphics/descriptors/descriptor_writer.cpp`):
`for (auto& write : m_writes) write.dstSet = set;` then
`vkUpdateDescriptorSets(device, m_writes.size(), m_writes.data(), 0, nullptr);`.
The writes are mutated in place (their `dstSet` now points at `set`) and
the batch is handed to the device; `m_writes` is not cleared. -/
def DescriptorWriter.overwrite (w : DescriptorWriter) (dev : DeviceUpdates) (set : Nat) :
    DescriptorWriter × DeviceUpdates :=
  let ws := w.writes.map fun r => { r with dstSet := set }
  (⟨ws⟩, ⟨dev.updates ++ [ws]⟩)

/-- `DescriptorWriter::build(set)` from `graphics/descriptors.cpp`
(the `bool`-returning variant):
`bool success = m_pool.allocateDescriptorSet(layout, set); if (!success) return false;
overwrite(set); return true;`.  A thrown exception would propagate
(`Except.error`); the result carries the returned `Bool`, the
out-parameter `set`, and the final writer and device states. -/
def DescriptorsCpp.build (w : DescriptorWriter) (dev : DeviceUpdates)
    (pool setLayout : Nat) (vkAllocate : VkDescriptorSetAllocateInfo → Option Nat)
    (set : Nat) : Except EngineError (Bool × Nat × DescriptorWriter × DeviceUpdates) :=
  match DescriptorPool.allocateDescriptorSet pool setLayout vkAllocate set with
  | Except.error e => Except.error e
  | Except.ok (false, s) => Except.ok (false, s, w, dev)
  | Except.ok (true, s) =>
      let r := w.overwrite dev s
      Except.ok (true, s, r.1, r.2)

/-- `DescriptorWriter::build(set)` from
`graphics/descriptors/descriptor_writer.cpp` (the `void`-returning
variant): `m_pool.allocateDescriptorSet(layout, set); overwrite(set);`.
The allocation result is discarded and `overwrite` runs
unconditionally; the function returns nothing. -/
def DescriptorWriterCpp.build (w : DescriptorWriter) (dev : DeviceUpdates)
    (pool setLayout : Nat) (vkAllocate : VkDescriptorSetAllocateInfo → Option Nat)
    (set : Nat) : Except EngineError (Nat × DescriptorWriter × DeviceUpdates) :=
  match DescriptorPool.allocateDescriptorSet pool setLayout vkAllocate set with
  | Except.error e => Except.error e
  | Except.ok (_, s) =>
      let r := w.overwrite dev s
      Except.ok (s, r.1, r.2)

/-- A concrete writer holding one pending write, as produced by a single
`writeBuffer(0, info)` call against a one-binding layout. -/
def writerWithOneWrite : DescriptorWriter :=
  ⟨[{ dstSet := 0, dstBinding := 0, descriptorType := 6, descriptorCount := 1, info := 11 }]⟩

/-- A `vkAllocateDescriptorSets` oracle for an exhausted pool: every
allocation fails. -/
def allocAlwaysFails : VkDescriptorSetAllocateInfo → Option Nat := fun _ => Option.none

/-- C++ `alignUp`-style rounding used by the compiler to lay out a
standard-layout struct: the least multiple of `a` that is `≥ n`. -/
def alignUp (n a : Nat) : Nat := ((n + a - 1) / a) * a

/-- One field of a C++ struct: its `sizeof` and `alignof`. -/
structure CppField where
  size : Nat
  alignment : Nat
deriving DecidableEq

/-- The Itanium-ABI layout of a standard-layout struct: each field is
placed at the current cursor rounded up to the field's alignment; the
result is the list of field offsets together with the end cursor. -/
def layoutFields : List CppField → Nat → List Nat × Nat
  | [], cursor => ([], cursor)
  | f :: fs, cursor =>
      let off := alignUp cursor f.alignment
      let rest := layoutFields fs (off + f.size)
      (off :: rest.1, rest.2)

/-- The fields of `struct alignas(16) MeshInstanceData` from
`raytracing_scene_manager_system.hpp`, in declaration order:
`VkDeviceAddress vertexBufferAddress` (8/8),
`VkDeviceAddress indexBufferAddress` (8/8),
`uint32_t materialIndex` (4/4),
`float textureTilingFactor` (4/4),
`alignas(16) glm::vec4 textureTintColor` (16/16). -/
def meshInstanceDataFields : List CppField :=
  [⟨8, 8⟩, ⟨8, 8⟩, ⟨4, 4⟩, ⟨4, 4⟩, ⟨16, 16⟩]

/-- `alignof(MeshInstanceData)`: the maximum of the `alignas(16)`
specifier and every field alignment. -/
def meshInstanceDataAlignment : Nat :=
  meshInstanceDataFields.foldl (fun a f => max a f.alignment) 16

/-- The byte offsets of the fields of `MeshInstanceData`. -/
def meshInstanceDataOffsets : List Nat :=
  (layoutFields meshInstanceDataFields 0).1

/-- `sizeof(MeshInstanceData)`: the end of the last field rounded up to
the struct alignment. -/
def sizeofMeshInstanceData : Nat :=
  alignUp (layoutFields meshInstanceDataFields 0).2 meshInstanceDataAlignment

/-- The byte offset of record `n` in an array (or tightly packed GPU
buffer) of `MeshInstanceData`: array element stride is `sizeof`. -/
def meshInstanceRecordOffset (n : Nat) : Nat := n * sizeofMeshInstanceData

/-- State of a `RayTracingSceneManagerSystem`
(`raytracing_scene_manager_system.hpp`): the TLAS handle
(`VK_NULL_HANDLE` = 0 initially), its backing buffer, the build-size and
create infos, the two descriptor sets, and the CPU-side mesh-instance
records (collapsed to handles/sizes). -/
structure RayTracingSceneManagerSystem where
  tlas : Nat
  tlasBuffer : Option Nat
  buildSizeInfo : Nat
  createInfo : Nat
  tlasDescriptorSet : Nat
  meshInstanceData : List Nat
  meshInstanceBuffer : Option Nat
  meshInstanceDescriptorSet : Nat
deriving DecidableEq

/-- `RayTracingSceneManagerSystem::updateTLAS()`: the body in the header
is empty (`void updateTLAS() {}`, commented "to implement later"), so
the operation returns with the state untouched. -/
def RayTracingSceneManagerSystem.updateTLAS (s : RayTracingSceneManagerSystem) :
    RayTracingSceneManagerSystem := s

/-- `RayTracingSceneManagerSystem::getTLASDescriptorSet()`: a const read. -/
def RayTracingSceneManagerSystem.getTLASDescriptorSet (s : RayTracingSceneManagerSystem) : Nat :=
  s.tlasDescriptorSet

/-- `RayTracingSceneManagerSystem::getMeshInstanceDescriptorSet()`: a const read. -/
def RayTracingSceneManagerSystem.getMeshInstanceDescriptorSet
    (s : RayTracingSceneManagerSystem) : Nat :=
  s.meshInstanceDescriptorSet

/-- A concrete unmapped buffer: 16-byte elements, 4 instances, no
minimum offset alignment, never mapped. -/
def unmappedBuffer : Buffer := Buffer.create 16 4 0

/-- A concrete mapped buffer: 3-byte elements padded to a 4-byte
aligned stride, 3 instances, with an active host mapping. -/
def mappedBuffer : Buffer := { Buffer.create 3 3 4 with mapped := true }

/-- Bitwise characterization of the alignment mask: for a 64-bit value
`x`, clearing its low `k` bits (`x &&& (2^64 - 2^k)`) rounds `x` down to
a multiple of `2^k`. -/
theorem land_high_mask (k x : Nat) (hk : k ≤ 64) (hx : x < 2^64) :
    x &&& (2^64 - 2^k) = 2^k * (x / 2^k) := by
  have hmask : (2^64 - 2^k : Nat) = (2^(64-k) - 1) <<< k := by
    rw [Nat.shiftLeft_eq, Nat.sub_mul, Nat.one_mul, ← Nat.pow_add, Nat.sub_add_cancel hk]
  have hdiv : 2^k * (x / 2^k) = (x >>> k) <<< k := by
    rw [Nat.shiftRight_eq_div_pow, Nat.shiftLeft_eq, Nat.mul_comm]
  rw [hmask, hdiv]
  apply Nat.eq_of_testBit_eq
  intro i
  rw [Nat.testBit_and, Nat.testBit_shiftLeft, Nat.testBit_shiftLeft, Nat.testBit_shiftRight,
    Nat.testBit_two_pow_sub_one]
  by_cases hik : k ≤ i
  · have hge : i ≥ k := hik
    have hki : k + (i - k) = i := by omega
    simp only [hge, decide_True, Bool.true_and, hki]
    by_cases hiw : i < 64
    · have : i - k < 64 - k := by omega
      simp [this]
    · have h1 : x.testBit i = false := by
        apply Nat.testBit_lt_two_pow
        calc x < 2^64 := hx
          _ ≤ 2^i := Nat.pow_le_pow_right (by norm_num) (by omega)
      have h2 : ¬ (i - k < 64 - k) := by omega
      simp [h1, h2]
  · have : ¬ (i ≥ k) := hik
    simp [this]

/-- Rounding up to a multiple of `m` never falls below the value. -/
theorem ceil_div_mul_ge (m S : Nat) (hm : 0 < m) : S ≤ m * ((S + m - 1) / m) := by
  rcases Nat.eq_zero_or_pos S with hS | hS
  · simp [hS]
  · have h1 : S + m - 1 = (S - 1) + m := by omega
    rw [h1, Nat.add_div_right _ hm, Nat.mul_add, Nat.mul_one]
    have h2 := Nat.div_add_mod (S - 1) m
    have h3 : (S - 1) % m < m := Nat.mod_lt _ hm
    omega

/-- For a power-of-two `minOffsetAlignment` and no 64-bit overflow,
`getAlignment` computes exact round-up division. -/
theorem getAlignment_pow2 (S k m : Nat) (hk : k ≤ 64) (hmk : m = 2^k)
    (hmask : ((2^64 - 1 : Nat) ^^^ (m - 1)) = 2^64 - m)
    (hov : S + m - 1 < 2^64) :
    getAlignment S m = m * ((S + m - 1) / m) := by
  subst hmk
  unfold getAlignment
  rw [if_pos (Nat.two_pow_pos k), Nat.mod_eq_of_lt hov, hmask,
    land_high_mask k (S + 2^k - 1) hk hov]

/-- For a power-of-two `minOffsetAlignment` and no 64-bit overflow, the
result of `getAlignment` dominates `instanceSize` and is a multiple of
the alignment. -/
theorem getAlignment_pow2_spec (S k m : Nat) (hk : k ≤ 64) (hmk : m = 2^k)
    (hmask : ((2^64 - 1 : Nat) ^^^ (m - 1)) = 2^64 - m)
    (hov : S + m - 1 < 2^64) :
    S ≤ getAlignment S m ∧ getAlignment S m % m = 0 := by
  rw [getAlignment_pow2 S k m hk hmk hmask hov]
  constructor
  · exact ceil_div_mul_ge m S (by rw [hmk]; exact Nat.two_pow_pos k)
  · exact Nat.mul_mod_right m _

/-- C3 (amended): for all `instanceSize > 0` and `minOffsetAlignment` in
`{0,1,4,16,256}` such that `instanceSize + minOffsetAlignment - 1` does
not overflow a `uint64_t`, `getAlignment` returns a value `≥
instanceSize` that is a multiple of `minOffsetAlignment` when
`minOffsetAlignment > 0`, and exactly `instanceSize` when
`minOffsetAlignment = 0`. -/
theorem getAlignment_spec (S m : Nat) (hS : 0 < S)
    (hm : m = 0 ∨ m = 1 ∨ m = 4 ∨ m = 16 ∨ m = 256)
    (hov : S + m - 1 < 2^64) :
    S ≤ getAlignment S m ∧
    (0 < m → getAlignment S m % m = 0) ∧
    (m = 0 → getAlignment S m = S) := by
  rcases hm with rfl | rfl | rfl | rfl | rfl
  · exact ⟨by simp [getAlignment], fun h0 => absurd h0 (by norm_num), fun _ => by simp [getAlignment]⟩
  · have h := getAlignment_pow2_spec S 0 1 (by norm_num) (by norm_num) (by decide) hov
    exact ⟨h.1, fun _ => h.2, fun h0 => absurd h0 (by norm_num)⟩
  · have h := getAlignment_pow2_spec S 2 4 (by norm_num) (by norm_num) (by decide) hov
    exact ⟨h.1, fun _ => h.2, fun h0 => absurd h0 (by norm_num)⟩
  · have h := getAlignment_pow2_spec S 4 16 (by norm_num) (by norm_num) (by decide) hov
    exact ⟨h.1, fun _ => h.2, fun h0 => absurd h0 (by norm_num)⟩
  · have h := getAlignment_pow2_spec S 8 256 (by norm_num) (by norm_num) (by decide) hov
    exact ⟨h.1, fun _ => h.2, fun h0 => absurd h0 (by norm_num)⟩

/-- C3 witness: `getAlignment 7 16 = 16`: at least `7`, a multiple of `16`. -/
theorem getAlignment_spec_witness :
    7 ≤ getAlignment 7 16 ∧
    (0 < 16 → getAlignment 7 16 % 16 = 0) ∧
    (16 = 0 → getAlignment 7 16 = 7) :=
  getAlignment_spec 7 16 (by decide) (by decide) (by decide)

/-- C3 counterexample: at `instanceSize = 2^64 - 1` (a valid positive
`uint64_t`) and `minOffsetAlignment = 4`, the `uint64_t` sum in
`getAlignment` wraps around and the function returns `0`, which is not
`≥ instanceSize`, refuting the claim as stated for all
`instanceSize > 0`. -/
theorem getAlignment_overflow_counterexample :
    0 < 2^64 - 1 ∧
    getAlignment (2^64 - 1) 4 = 0 ∧
    ¬ (2^64 - 1 ≤ getAlignment (2^64 - 1) 4) := by decide

/-- C4: on a mapped buffer whose fields are well formed
(`instanceSize ≤ alignmentSize`, both positive, total size within
`uint64_t`), `writeToIndex data i` for a valid `i < instanceCount`
succeeds, stores the `instanceSize` bytes of `data` at byte offset
`i * alignmentSize` (the offset reported by `descriptorInfoForIndex i`,
whose range covers all `instanceSize` written bytes), and leaves every
byte of every other index `j ≠ i` unchanged. -/
theorem writeToIndex_isolated (b : Buffer) (data : Nat → Nat) (i : Nat)
    (hmap : b.mapped = true)
    (hSA : b.instanceSize ≤ b.alignmentSize)
    (hS : 0 < b.instanceSize)
    (hsent : b.instanceSize < VK_WHOLE_SIZE)
    (hi : i < b.instanceCount)
    (hov : b.alignmentSize * b.instanceCount < 2^64) :
    ∃ b', b.writeToIndex data i = Except.ok b' ∧
      (b.descriptorInfoForIndex i).offset = i * b.alignmentSize ∧
      b.instanceSize ≤ (b.descriptorInfoForIndex i).range ∧
      (∀ k, k < b.instanceSize →
        b'.mem ((b.descriptorInfoForIndex i).offset + k) = data k) ∧
      (∀ j k, j < b.instanceCount → j ≠ i → k < b.alignmentSize →
        b'.mem (j * b.alignmentSize + k) = b.mem (j * b.alignmentSize + k)) := by
  have hiA : i * b.alignmentSize < 2^64 := by
    calc i * b.alignmentSize
        ≤ b.instanceCount * b.alignmentSize := Nat.mul_le_mul_right _ (Nat.le_of_lt hi)
      _ = b.alignmentSize * b.instanceCount := Nat.mul_comm _ _
      _ < 2^64 := hov
  have hmod : (i * b.alignmentSize) % 2^64 = i * b.alignmentSize := Nat.mod_eq_of_lt hiA
  have hwrite : b.writeToIndex data i =
      Except.ok { b with mem := memcpy b.mem (i * b.alignmentSize) data b.instanceSize } := by
    unfold Buffer.writeToIndex Buffer.writeToBuffer
    rw [hmod, if_neg (by simp [hmap]), if_neg (Nat.ne_of_lt hsent)]
  refine ⟨_, hwrite, ?_, ?_, ?_, ?_⟩
  · exact hmod
  · simpa [Buffer.descriptorInfoForIndex, Buffer.descriptorInfo] using hSA
  · intro k hk
    simp only [Buffer.descriptorInfoForIndex, Buffer.descriptorInfo, hmod, memcpy]
    rw [if_pos ⟨Nat.le_add_right _ _, by omega⟩, Nat.add_sub_cancel_left]
  · intro j k hj hne hk
    simp only [memcpy]
    rw [if_neg ?_]
    rintro ⟨hc1, hc2⟩
    rcases Nat.lt_or_ge j i with hji | hij
    · have h1 : (j + 1) * b.alignmentSize ≤ i * b.alignmentSize :=
        Nat.mul_le_mul_right _ hji
      have h2 : j * b.alignmentSize + k < (j + 1) * b.alignmentSize := by
        rw [Nat.succ_mul]; omega
      omega
    · have hij' : i + 1 ≤ j := by omega
      have h1 : (i + 1) * b.alignmentSize ≤ j * b.alignmentSize :=
        Nat.mul_le_mul_right _ hij'
      have h2 : i * b.alignmentSize + b.instanceSize ≤ (i + 1) * b.alignmentSize := by
        rw [Nat.succ_mul]; omega
      omega

/-- C4 witness: the mapped 3-byte-stride-4 buffer, writing index 1. -/
theorem writeToIndex_isolated_witness :
    ∃ b', mappedBuffer.writeToIndex (fun k => k + 40) 1 = Except.ok b' ∧
      (mappedBuffer.descriptorInfoForIndex 1).offset = 1 * mappedBuffer.alignmentSize ∧
      mappedBuffer.instanceSize ≤ (mappedBuffer.descriptorInfoForIndex 1).range ∧
      (∀ k, k < mappedBuffer.instanceSize →
        b'.mem ((mappedBuffer.descriptorInfoForIndex 1).offset + k) = k + 40) ∧
      (∀ j k, j < mappedBuffer.instanceCount → j ≠ 1 → k < mappedBuffer.alignmentSize →
        b'.mem (j * mappedBuffer.alignmentSize + k) = mappedBuffer.mem (j * mappedBuffer.alignmentSize + k)) :=
  writeToIndex_isolated mappedBuffer (fun k => k + 40) 1 rfl (by decide) (by decide)
    (by decide) (by decide) (by decide)

/-- C5 (amended): `writeToBuffer` is guarded by
`assert(m_mapped && "Cannot copy to unmapped buffer")`: with an active
mapping it cannot hit its error branch, and without one it is rejected.
`flush` and `invalidate`, however, carry no mapping check at all: each
unconditionally submits its `VkMappedMemoryRange` to the device,
mapped or not. -/
theorem mapped_precondition_spec (b : Buffer) (data : Nat → Nat) (size offset : Nat) :
    (b.mapped = true → (b.writeToBuffer data size offset).isOk = true) ∧
    (b.mapped = false →
      b.writeToBuffer data size offset = Except.error EngineError.assertionFailure) ∧
    b.flush size offset = Except.ok { memory := b.memory, offset := offset, size := size } ∧
    b.invalidate size offset = Except.ok { memory := b.memory, offset := offset, size := size } := by
  refine ⟨?_, ?_, rfl, rfl⟩
  · intro h
    unfold Buffer.writeToBuffer
    rw [h]
    simp only [Bool.true_eq_false, if_false]
    split <;> rfl
  · intro h
    unfold Buffer.writeToBuffer
    rw [h]
    rfl

/-- C5 witness: a mapped buffer's `writeToBuffer` succeeds; an unmapped
buffer's `writeToBuffer` fails the assertion. -/
theorem mapped_precondition_spec_witness :
    (mappedBuffer.writeToBuffer (fun _ => 7) 3 0).isOk = true ∧
    unmappedBuffer.writeToBuffer (fun _ => 7) 3 0 = Except.error EngineError.assertionFailure :=
  ⟨(mapped_precondition_spec mappedBuffer (fun _ => 7) 3 0).1 rfl,
   (mapped_precondition_spec unmappedBuffer (fun _ => 7) 3 0).2.1 rfl⟩

/-- C5 counterexample: `flush` (and `invalidate`) on a buffer with no
active mapping is performed, not rejected: the claim that calling them
without a mapping is an error fails on `flush` of this unmapped
buffer, which submits the range and reports the device result. -/
theorem flush_unmapped_counterexample :
    unmappedBuffer.mapped = false ∧
    unmappedBuffer.flush 16 0 = Except.ok { memory := 1, offset := 0, size := 16 } ∧
    (unmappedBuffer.flush 16 0).isOk = true ∧
    (unmappedBuffer.invalidate 16 0).isOk = true :=
  ⟨rfl, rfl, rfl, rfl⟩

/-- C6: on a mapped buffer, `writeToBuffer` with the `VK_WHOLE_SIZE`
sentinel copies `bufferSize` bytes to offset 0 whatever the `offset`
argument is; with any other size it copies exactly `size` bytes at
`offset`; and the constructor sets
`bufferSize = alignmentSize * instanceCount` (in `uint64_t`). -/
theorem writeToBuffer_whole_size_spec (b : Buffer) (data : Nat → Nat) (size offset : Nat)
    (hmap : b.mapped = true) :
    b.writeToBuffer data VK_WHOLE_SIZE offset =
      Except.ok { b with mem := memcpy b.mem 0 data b.bufferSize } ∧
    (size ≠ VK_WHOLE_SIZE →
      b.writeToBuffer data size offset =
        Except.ok { b with mem := memcpy b.mem offset data size }) ∧
    (∀ S C m, (Buffer.create S C m).bufferSize =
      ((Buffer.create S C m).alignmentSize * C) % 2^64) := by
  refine ⟨?_, ?_, fun S C m => rfl⟩
  · simp [Buffer.writeToBuffer, hmap]
  · intro h
    simp [Buffer.writeToBuffer, hmap, h]

/-- C6 witness: whole-size and sized writes on the concrete mapped buffer. -/
theorem writeToBuffer_whole_size_spec_witness :
    mappedBuffer.writeToBuffer (fun k => k) VK_WHOLE_SIZE 9 =
      Except.ok { mappedBuffer with mem := memcpy mappedBuffer.mem 0 (fun k => k) mappedBuffer.bufferSize } ∧
    mappedBuffer.writeToBuffer (fun k => k) 2 1 =
      Except.ok { mappedBuffer with mem := memcpy mappedBuffer.mem 1 (fun k => k) 2 } :=
  ⟨(writeToBuffer_whole_size_spec mappedBuffer (fun k => k) 2 9 rfl).1,
   (writeToBuffer_whole_size_spec mappedBuffer (fun k => k) 2 1 rfl).2.1 (by decide)⟩

/-- C7: `DescriptorPool::allocateDescriptorSet` never throws: whatever
the `vkAllocateDescriptorSets` outcome, it returns normally
(`Except.ok`), with `false` (and the out-parameter untouched) on pool
exhaustion and `true` together with the allocated set on success. -/
theorem allocateDescriptorSet_no_throw (pool setLayout : Nat)
    (vkAllocate : VkDescriptorSetAllocateInfo → Option Nat) (descriptor : Nat) :
    DescriptorPool.allocateDescriptorSet pool setLayout vkAllocate descriptor =
      Except.ok
        ((vkAllocate ⟨pool, setLayout, 1⟩).isSome,
         (vkAllocate ⟨pool, setLayout, 1⟩).getD descriptor) := by
  cases h : vkAllocate ⟨pool, setLayout, 1⟩ <;>
    simp [DescriptorPool.allocateDescriptorSet, h]

/-- C1 (amended): the `bool`-returning `DescriptorWriter::build` of
`graphics/descriptors.cpp` allocates a set through the pool and, when
allocation fails, returns `false` without touching the writer or the
device; on success it applies every pending write (via `overwrite`) and
returns `true` with the new set.  (The `void`-returning variant of
`graphics/descriptors/descriptor_writer.cpp` does not satisfy the
claim; see the counterexample.) -/
theorem build_returns_failure_spec (w : DescriptorWriter) (dev : DeviceUpdates)
    (pool setLayout : Nat) (vkAllocate : VkDescriptorSetAllocateInfo → Option Nat)
    (set : Nat) :
    (vkAllocate ⟨pool, setLayout, 1⟩ = Option.none →
      DescriptorsCpp.build w dev pool setLayout vkAllocate set =
        Except.ok (false, set, w, dev)) ∧
    (∀ s, vkAllocate ⟨pool, setLayout, 1⟩ = Option.some s →
      DescriptorsCpp.build w dev pool setLayout vkAllocate set =
        Except.ok (true, s, (w.overwrite dev s).1, (w.overwrite dev s).2)) := by
  constructor
  · intro h
    simp [DescriptorsCpp.build, DescriptorPool.allocateDescriptorSet, h]
  · intro s h
    simp [DescriptorsCpp.build, DescriptorPool.allocateDescriptorSet, h]

/-- C1 witness: with an exhausted pool, the `descriptors.cpp` `build`
returns `false` and leaves writer and device untouched. -/
theorem build_returns_failure_spec_witness :
    DescriptorsCpp.build writerWithOneWrite ⟨[]⟩ 1 2 allocAlwaysFails 0 =
      Except.ok (false, 0, writerWithOneWrite, (⟨[]⟩ : DeviceUpdates)) :=
  (build_returns_failure_spec writerWithOneWrite ⟨[]⟩ 1 2 allocAlwaysFails 0).1 rfl

/-- C1 counterexample: the `void`-returning `DescriptorWriter::build` of
`graphics/descriptors/descriptor_writer.cpp` discards the allocation
result: with an exhausted pool (allocation returns failure) it still
applies the pending write to the device (the update batch is submitted)
and returns normally with no failure indication, refuting the claim
that `build` returns a failure result rather than proceeding whenever
pool allocation fails. -/
theorem build_ignores_failure_counterexample :
    allocAlwaysFails ⟨1, 2, 1⟩ = Option.none ∧
    DescriptorWriterCpp.build writerWithOneWrite ⟨[]⟩ 1 2 allocAlwaysFails 0 =
      Except.ok (0,
        (⟨[{ dstSet := 0, dstBinding := 0, descriptorType := 6, descriptorCount := 1, info := 11 }]⟩ : DescriptorWriter),
        (⟨[[{ dstSet := 0, dstBinding := 0, descriptorType := 6, descriptorCount := 1, info := 11 }]]⟩ : DeviceUpdates)) :=
  ⟨rfl, rfl⟩

/-- C2 (amended): after `overwrite` applies the pending writes (also
reached on every successful `build`), the batch is retained, not
cleared: the writer still holds one write per previous pending write,
each now pointing its `dstSet` at the written set, and the device has
received exactly that batch. -/
theorem overwrite_retains_writes (w : DescriptorWriter) (dev : DeviceUpdates) (set : Nat) :
    ((w.overwrite dev set).1).writes = w.writes.map (fun r => { r with dstSet := set }) ∧
    ((w.overwrite dev set).1).writes.length = w.writes.length ∧
    ((w.overwrite dev set).2).updates =
      dev.updates ++ [w.writes.map (fun r => { r with dstSet := set })] := by
  refine ⟨rfl, ?_, rfl⟩
  simp [DescriptorWriter.overwrite]

/-- C2 counterexample: a writer with one pending write still holds a
pending write after `overwrite` applies the batch to set 5, refuting
the claim that the batch is consumed/cleared. -/
theorem overwrite_not_cleared_counterexample :
    ((writerWithOneWrite.overwrite ⟨[]⟩ 5).1).writes ≠ [] ∧
    ((writerWithOneWrite.overwrite ⟨[]⟩ 5).1).writes.length = 1 := by
  exact ⟨by decide, rfl⟩

/-- C8: `MeshInstanceData` is 48 bytes, 16-byte aligned, with the
vertex-buffer address at offset 0, the index-buffer address at 8, the
material index at 16, the tiling factor at 20 and the tint color at 32;
records in an array of `MeshInstanceData` therefore sit at 48-byte
strides. -/
theorem meshInstanceData_layout :
    meshInstanceDataOffsets = [0, 8, 16, 20, 32] ∧
    sizeofMeshInstanceData = 48 ∧
    meshInstanceDataAlignment = 16 ∧
    sizeofMeshInstanceData % meshInstanceDataAlignment = 0 ∧
    ∀ n, meshInstanceRecordOffset n = 48 * n := by
  refine ⟨by decide, by decide, by decide, by decide, fun n => ?_⟩
  have h : sizeofMeshInstanceData = 48 := by decide
  unfold meshInstanceRecordOffset
  rw [h, Nat.mul_comm]

/-- C9: `updateTLAS()` is a no-op: it returns the whole system state
unchanged, in particular the TLAS handle and its backing buffer; the
descriptor-set getters read the same values before and after. -/
theorem updateTLAS_noop (s : RayTracingSceneManagerSystem) :
    s.updateTLAS = s ∧
    (s.updateTLAS).tlas = s.tlas ∧
    (s.updateTLAS).tlasBuffer = s.tlasBuffer ∧
    (s.updateTLAS).buildSizeInfo = s.buildSizeInfo ∧
    (s.updateTLAS).createInfo = s.createInfo ∧
    (s.updateTLAS).meshInstanceBuffer = s.meshInstanceBuffer ∧
    s.updateTLAS.getTLASDescriptorSet = s.getTLASDescriptorSet ∧
    s.updateTLAS.getMeshInstanceDescriptorSet = s.getMeshInstanceDescriptorSet :=
  ⟨rfl, rfl, rfl, rfl, rfl, rfl, rfl, rfl⟩

/-- C10: `unmap` leaves the mapped pointer null in all cases, is
idempotent (`unmap(); unmap()` equals a single `unmap()`, including the
number of `vkUnmapMemory` calls issued), and is a no-op on an unmapped
buffer — so the destructor's unconditional `unmap()` is safe whether or
not the buffer was ever mapped. -/
theorem unmap_idempotent_total (b : Buffer) :
    (b.unmap).mapped = false ∧
    b.unmap.unmap = b.unmap ∧
    (b.mapped = false → b.unmap = b) := by
  refine ⟨?_, ?_, ?_⟩
  · by_cases h : b.mapped <;> simp [Buffer.unmap, h]
  · by_cases h : b.mapped <;> simp [Buffer.unmap, h]
  · intro h
    simp [Buffer.unmap, h]

/-- C10 witness: the never-mapped concrete buffer. -/
theorem unmap_idempotent_total_witness :
    (unmappedBuffer.unmap).mapped = false ∧
    unmappedBuffer.unmap.unmap = unmappedBuffer.unmap ∧
    unmappedBuffer.unmap = unmappedBuffer :=
  ⟨(unmap_idempotent_total unmappedBuffer).1,
   (unmap_idempotent_total unmappedBuffer).2.1,
   (unmap_idempotent_total unmappedBuffer).2.2 rfl⟩

end PXTEngine
